import Mathlib

/-!
Shallow embedding of the contact-management REST API (FastAPI + SQLAlchemy)
from this repository, restricted to the parts the verified claims are about:

* the auth routes (`src/routes/auth.py`: signup, login, refresh_token,
  confirmed_email),
* the user repository (`src/repository/users.py`),
* the contact repository (`src/repository/contacts.py`),
* the avatar route (`src/routes/users.py`) and its cache interaction,
* the contact routes argument wiring (`src/routes/contacts.py`).

The token service, the password hasher, the pydantic schemas and the message
constants live in files (`src/services/auth.py`, `src/schemas/*`,
`src/conf/messages.py`) that are not among the sources; those are modelled
from the spec (sections 4.1, 4.2, 7) and marked as such on each definition.

The database session is modelled as an explicit list of rows; an ORM object
fetched from the session and then mutated is modelled by replacing the first
row equal to the fetched value.  Python runtime errors that the code can hit
(attribute access on `None`, attribute access on a wrongly-typed argument)
are modelled by an explicit error type, since several claims turn on them.
-/

namespace HW14

/-- Errors a route can end in: an `HTTPException(status, detail)` raised on
purpose, or a Python `AttributeError` the code runs into. -/
inductive PyError where
  | httpException (statusCode : Nat) (detail : String)
  | attributeError (msg : String)
deriving DecidableEq, Repr

/-- Modelled from the spec: `src/conf/messages.py` is not among the sources.
The constants are distinct message strings; the spec (section 8) quotes the
unconfirmed-email message as "email not confirmed" and section 7 calls the
credential failure a generic unauthorized message. -/
def INCORRECT_EMAIL_PASSWORD : String := "Incorrect email or password"

/-- Modelled from the spec: distinct detail for an unconfirmed email. -/
def EMAIL_NOT_CONFIRMED : String := "Email not confirmed"

/-- Modelled from the spec: detail raised by the refresh route on a revoked
refresh token. -/
def INVALID_REFRESH_TOKEN : String := "Invalid refresh token"

/-- Modelled from the spec: detail raised on a confirmation for an unknown
user. -/
def VERIFICATION_ERROR : String := "Verification error"

/-- Modelled from the spec: detail raised by signup on a duplicate email. -/
def ACCOUNT_EXIST : String := "Account already exists"

/-! ## Token service (spec section 4.2)

`src/services/auth.py` is not among the sources; the whole token service is
modelled from the spec: three token kinds, payload `{subject, iat, exp, kind}`,
and a decode that checks expiry and that the kind equals the expected kind.
An undecodable or badly signed token string is modelled as `none`. -/

/-- The three token kinds of spec section 4.2. -/
inductive TokenKind where
  | access
  | refresh
  | email
deriving DecidableEq, Repr

/-- Modelled from the spec: the signed payload of a token.  Times are seconds
on an abstract clock. -/
structure Token where
  sub : String
  kind : TokenKind
  iat : Nat
  exp : Nat
deriving DecidableEq, Repr

/-- Spec section 4.2: access tokens live 15 minutes. -/
def accessExpireSeconds : Nat := 15 * 60

/-- Spec section 4.2: refresh tokens live 7 days. -/
def refreshExpireSeconds : Nat := 7 * 24 * 3600

/-- Spec section 4.2: email tokens live 24 hours. -/
def emailExpireSeconds : Nat := 24 * 3600

/-- Errors of `decode` (spec section 4.2). -/
inductive TokenError where
  | InvalidToken
  | ExpiredToken
  | WrongTokenKind
deriving DecidableEq, Repr

/-- Modelled from the spec: `create_access_token(subject)` encodes
`{subject, kind=access, iat=now, exp=now+15min}`. -/
def create_access_token (sub : String) (now : Nat) : Token :=
  { sub := sub, kind := TokenKind.access, iat := now, exp := now + accessExpireSeconds }

/-- Modelled from the spec: same shape, kind=refresh, exp=now+7days. -/
def create_refresh_token (sub : String) (now : Nat) : Token :=
  { sub := sub, kind := TokenKind.refresh, iat := now, exp := now + refreshExpireSeconds }

/-- Modelled from the spec: kind=email, exp=now+24h. -/
def create_email_token (sub : String) (now : Nat) : Token :=
  { sub := sub, kind := TokenKind.email, iat := now, exp := now + emailExpireSeconds }

/-- Modelled from the spec: `decode(token_string, expected_kind)` verifies the
signature (an unforgeable/undecodable string is `none`), the expiry, and that
the kind equals the expected kind, in that order. -/
def decode (t : Option Token) (expected : TokenKind) (now : Nat) :
    Except TokenError String :=
  match t with
  | none => Except.error TokenError.InvalidToken
  | some tok =>
      if tok.exp ≤ now then Except.error TokenError.ExpiredToken
      else if tok.kind = expected then Except.ok tok.sub
      else Except.error TokenError.WrongTokenKind

/-- `auth_service.decode_refresh_token` of the refresh route: decode expecting
kind refresh. -/
def decode_refresh_token (t : Option Token) (now : Nat) : Except TokenError String :=
  decode t TokenKind.refresh now

/-- `auth_service.get_email_from_token` of the confirmation route: decode
expecting kind email. -/
def get_email_from_token (t : Option Token) (now : Nat) : Except TokenError String :=
  decode t TokenKind.email now

/-! ## Credential hasher (spec section 4.1)

`src/services/auth.py` is not among the sources; the hasher is modelled from
the spec as an idealized collision-free salted hash: the digest carries the
salt and determines the plaintext it was computed from, `verify` compares. -/

/-- Modelled from the spec: a salted digest of a password. -/
structure Digest where
  salt : Nat
  tag : String
deriving DecidableEq, Repr

/-- Modelled from the spec: `hash(plaintext)` with an internally drawn salt;
the salt is an explicit argument here. -/
def get_password_hash (plain : String) (salt : Nat) : Digest :=
  { salt := salt, tag := plain }

/-- Modelled from the spec: `verify(plaintext, digest)`. -/
def verify_password (plain : String) (d : Digest) : Bool :=
  d.tag == plain

/-! ## Data model (`src/database/models.py`) -/

/-- Row of the `users` table (`models.py`, class `User`).  The stored refresh
token is structured like the tokens the service issues. -/
structure User where
  id : Nat
  username : String
  email : String
  password : Digest
  avatar : Option String
  refresh_token : Option Token
  confirmed : Bool
deriving DecidableEq, Repr

/-- Calendar date, standing for Python `datetime.date` (proleptic Gregorian). -/
structure PyDate where
  year : Nat
  month : Nat
  day : Nat
deriving DecidableEq, Repr

/-- Gregorian leap-year rule, as in Python's `datetime`. -/
def isLeap (y : Nat) : Bool :=
  (y % 4 == 0 && y % 100 != 0) || (y % 400 == 0)

/-- Days in a month of the Gregorian calendar. -/
def daysInMonth (y m : Nat) : Nat :=
  if m == 2 then (if isLeap y then 29 else 28)
  else if m == 4 || m == 6 || m == 9 || m == 11 then 30
  else 31

/-- The day after a date. -/
def nextDay (d : PyDate) : PyDate :=
  if d.day < daysInMonth d.year d.month then { d with day := d.day + 1 }
  else if d.month < 12 then { year := d.year, month := d.month + 1, day := 1 }
  else { year := d.year + 1, month := 1, day := 1 }

/-- `date + timedelta(days=n)`. -/
def addDays (d : PyDate) : Nat → PyDate
  | 0 => d
  | n + 1 => nextDay (addDays d n)

/-- Two-digit zero-padded decimal, as in `strftime`/`to_char` fields. -/
def pad2 (n : Nat) : String :=
  if n < 10 then "0" ++ toString n else toString n

/-- `strftime("%m-%d")` on the Python side and `to_char(..., 'MM-DD')` on the
SQL side produce the same five-character string. -/
def mmdd (d : PyDate) : String :=
  pad2 d.month ++ "-" ++ pad2 d.day

/-- Lexicographic order on character lists, the order SQL uses to compare the
`to_char` varchar results (all characters here are ASCII digits and `-`). -/
def lexLe : List Char → List Char → Bool
  | [], _ => true
  | _ :: _, [] => false
  | a :: as, b :: bs =>
      if a < b then true
      else if b < a then false
      else lexLe as bs

/-- SQL `<=` on the formatted date strings. -/
def sqlStrLe (a b : String) : Bool :=
  lexLe a.toList b.toList

/-- Row of the `contacts` table (`models.py`, class `Contact`); `user_id` is a
nullable foreign key. -/
structure Contact where
  id : Nat
  first_name : String
  last_name : String
  email : String
  phone_number : String
  birthday : PyDate
  additional_info : Option String
  user_id : Option Nat
deriving DecidableEq, Repr

/-! ## Generic row mutation helpers

An ORM object fetched from a session and then mutated in place corresponds to
replacing the first row equal to the fetched value. -/

/-- Replace the first element satisfying `p` by its image under `f`. -/
def replaceFirst {α : Type} (p : α → Bool) (f : α → α) : List α → List α
  | [] => []
  | a :: as => if p a then f a :: as else a :: replaceFirst p f as

/-- Remove the first element satisfying `p`. -/
def removeFirst {α : Type} (p : α → Bool) : List α → List α
  | [] => []
  | a :: as => if p a then as else a :: removeFirst p as

/-! ## Contact repository (`src/repository/contacts.py`) -/

/-- Fields of `ContactBase` (`src/schemas/contact.py` is not among the
sources; the fields are the ones the unit tests construct it with).  Modelled
from the spec and the tests. -/
structure ContactBase where
  first_name : String
  last_name : String
  email : String
  phone_number : String
  birthday : PyDate
deriving DecidableEq, Repr

/-- `update_contact`'s field-by-field `setattr` loop over `body.dict()`. -/
def applyContactBase (body : ContactBase) (c : Contact) : Contact :=
  { c with
    first_name := body.first_name
    last_name := body.last_name
    email := body.email
    phone_number := body.phone_number
    birthday := body.birthday }

/-- `get_all_contacts(limit, offset, user, session)`: select contacts filtered
by `Contact.user_id == user.id`, then `.offset(offset).limit(limit)`. -/
def get_all_contacts (limit offset : Nat) (user : User) (db : List Contact) :
    List Contact :=
  ((db.filter fun c => c.user_id == some user.id).drop offset).take limit

/-- `get_contact(contact_id, session, user)`: first row with the given id and
the user's id. -/
def get_contact (contact_id : Nat) (db : List Contact) (user : User) :
    Option Contact :=
  (db.filter fun c => c.id == contact_id && c.user_id == some user.id).head?

/-- `create_contact(contact, db, user)`: insert a row built from the body with
`user_id=user.id`; the fresh primary key is an explicit argument. -/
def create_contact (body : ContactBase) (newId : Nat) (db : List Contact)
    (user : User) : Contact × List Contact :=
  let c : Contact :=
    { id := newId, first_name := body.first_name, last_name := body.last_name,
      email := body.email, phone_number := body.phone_number,
      birthday := body.birthday, additional_info := none,
      user_id := some user.id }
  (c, db ++ [c])

/-- `update_contact(contact_id, body, db, user)`: fetch the first row matching
id and user id; if present overwrite its `ContactBase` fields and commit. -/
def update_contact (contact_id : Nat) (body : ContactBase) (db : List Contact)
    (user : User) : Option Contact × List Contact :=
  match (db.filter fun c => c.id == contact_id && c.user_id == some user.id).head? with
  | none => (none, db)
  | some c =>
      let c' := applyContactBase body c
      (some c', replaceFirst (fun v => v == c) (fun _ => c') db)

/-- `remove_contact(contact_id, db, user)`: fetch as above; if present delete
the row and commit. -/
def remove_contact (contact_id : Nat) (db : List Contact) (user : User) :
    Option Contact × List Contact :=
  match (db.filter fun c => c.id == contact_id && c.user_id == some user.id).head? with
  | none => (none, db)
  | some c => (some c, removeFirst (fun v => v == c) db)

/-- `startsWith` on character lists, for the SQL `contains` translation. -/
def startsWithChars : List Char → List Char → Bool
  | [], _ => true
  | _ :: _, [] => false
  | a :: as, b :: bs => a == b && startsWithChars as bs

/-- Substring occurrence on character lists. -/
def occursIn (needle : List Char) : List Char → Bool
  | [] => needle.isEmpty
  | b :: bs => startsWithChars needle (b :: bs) || occursIn needle bs

/-- SQL `column.contains(q)`, i.e. `LIKE '%q%'`. -/
def strContains (hay needle : String) : Bool :=
  occursIn needle.toList hay.toList

/-- `search_contacts(db, query, user)`: rows where the query occurs in first
name, last name or email, and `user_id == user.id`. -/
def search_contacts (db : List Contact) (q : String) (user : User) :
    List Contact :=
  db.filter fun c =>
    (strContains c.first_name q || strContains c.last_name q
      || strContains c.email q)
    && c.user_id == some user.id

/-- `get_upcoming_birthdays(db, user)`: `today` and `today + 7 days` are
formatted as `MM-DD` strings and the filter keeps the user's rows whose
`to_char(birthday, 'MM-DD')` lies between the two strings in SQL string
order.  `date.today()` is an explicit argument. -/
def get_upcoming_birthdays (today : PyDate) (db : List Contact) (user : User) :
    List Contact :=
  let upcoming := addDays today 7
  let today_str := mmdd today
  let upcoming_str := mmdd upcoming
  db.filter fun c =>
    c.user_id == some user.id
    && (sqlStrLe today_str (mmdd c.birthday)
        && sqlStrLe (mmdd c.birthday) upcoming_str)

/-! ## User repository (`src/repository/users.py`) -/

/-- `get_user_by_email(email, db)`: first row whose email column equals the
argument. -/
def get_user_by_email (email : String) (store : List User) : Option User :=
  (store.filter fun u => u.email == email).head?

/-- `update_token(user, token, db)`: `user.refresh_token = token; commit`.
When `user` is `None` the attribute assignment raises `AttributeError`
before any commit. -/
def update_token (user : Option User) (token : Option Token)
    (store : List User) : Except PyError (List User) :=
  match user with
  | none =>
      Except.error (PyError.attributeError
        "NoneType object has no attribute refresh_token")
  | some u =>
      Except.ok (replaceFirst (fun v => v == u)
        (fun v => { v with refresh_token := token }) store)

/-- `confirmed_email(email, db)` of the repository: refetch the user by email
and set `confirmed = True`; on a missing user the attribute assignment on
`None` raises. -/
def confirmed_email (email : String) (store : List User) :
    Except PyError (List User) :=
  match get_user_by_email email store with
  | none =>
      Except.error (PyError.attributeError
        "NoneType object has no attribute confirmed")
  | some u =>
      Except.ok (replaceFirst (fun v => v == u)
        (fun v => { v with confirmed := true }) store)

/-- `update_avatar_url(email, url, db)`: refetch by email, set the avatar,
commit, return the user. -/
def update_avatar_url (email : String) (url : Option String)
    (store : List User) : Except PyError (User × List User) :=
  match get_user_by_email email store with
  | none =>
      Except.error (PyError.attributeError
        "NoneType object has no attribute avatar")
  | some u =>
      let u' := { u with avatar := url }
      Except.ok (u', replaceFirst (fun v => v == u) (fun _ => u') store)

/-! ## Auth routes (`src/routes/auth.py`) -/

/-- Outcome of a route call: the HTTP result (or raised error) together with
the user store after the call. -/
structure RouteResult (α : Type) where
  result : Except PyError α
  store : List User
deriving Repr

/-- The access/refresh pair the login and refresh routes return. -/
structure TokenPair where
  access_token : Token
  refresh_token : Token
deriving DecidableEq, Repr

/-- Fields of `UserSchema` (`src/schemas/user.py` is not among the sources).
Modelled from the spec's data model: username, email, plaintext password. -/
structure UserSchema where
  username : String
  email : String
  password : String
deriving DecidableEq, Repr

/-- The row `create_user` builds: `User(**body.model_dump(), avatar=avatar)`
after the route hashed the password; `confirmed` takes its column default
`False`, `refresh_token` its default `NULL`.  The fresh primary key and the
Gravatar result are explicit arguments. -/
def mkNewUser (body : UserSchema) (salt : Nat) (avatar : Option String)
    (newId : Nat) : User :=
  { id := newId, username := body.username, email := body.email,
    password := get_password_hash body.password salt,
    avatar := avatar, refresh_token := none, confirmed := false }

/-- `signup` route: 409 when the email exists, otherwise hash the password and
insert the new row (the confirmation email is sent by a background task,
outside this model). -/
def signup (body : UserSchema) (salt : Nat) (avatar : Option String)
    (newId : Nat) (store : List User) : RouteResult User :=
  match get_user_by_email body.email store with
  | some _ =>
      { result := Except.error (PyError.httpException 409 ACCOUNT_EXIST),
        store := store }
  | none =>
      let u := mkNewUser body salt avatar newId
      { result := Except.ok u, store := store ++ [u] }

/-- `login` route: look the user up by email; missing user or wrong password
give the generic 401; an unconfirmed user gives the 401 with the
email-not-confirmed detail; otherwise issue both tokens and store the new
refresh token. -/
def login (username password : String) (now : Nat) (store : List User) :
    RouteResult TokenPair :=
  match get_user_by_email username store with
  | none =>
      { result := Except.error
          (PyError.httpException 401 INCORRECT_EMAIL_PASSWORD),
        store := store }
  | some user =>
      if ¬ verify_password password user.password then
        { result := Except.error
            (PyError.httpException 401 INCORRECT_EMAIL_PASSWORD),
          store := store }
      else if ¬ user.confirmed then
        { result := Except.error
            (PyError.httpException 401 EMAIL_NOT_CONFIRMED),
          store := store }
      else
        let at_ := create_access_token user.email now
        let rt := create_refresh_token user.email now
        match update_token (some user) (some rt) store with
        | Except.error e => { result := Except.error e, store := store }
        | Except.ok store' =>
            { result := Except.ok { access_token := at_, refresh_token := rt },
              store := store' }

/-- `refresh_token` route: decode the presented token expecting kind refresh,
fetch the user by the decoded email; when the user is missing or the stored
token differs, the code first calls `update_token(user, None, db)` — with a
missing user that dereferences `None` — and only then would raise the 401;
otherwise it issues a fresh pair and stores the new refresh token. -/
def refresh_token (token : Token) (now : Nat) (store : List User) :
    RouteResult TokenPair :=
  match decode_refresh_token (some token) now with
  | Except.error _ =>
      { result := Except.error
          (PyError.httpException 401 "Could not validate credentials"),
        store := store }
  | Except.ok email =>
      match get_user_by_email email store with
      | none =>
          match update_token none none store with
          | Except.error e => { result := Except.error e, store := store }
          | Except.ok store' =>
              { result := Except.error
                  (PyError.httpException 401 INVALID_REFRESH_TOKEN),
                store := store' }
      | some user =>
          if user.refresh_token ≠ some token then
            match update_token (some user) none store with
            | Except.error e => { result := Except.error e, store := store }
            | Except.ok store' =>
                { result := Except.error
                    (PyError.httpException 401 INVALID_REFRESH_TOKEN),
                  store := store' }
          else
            let at_ := create_access_token email now
            let rt := create_refresh_token email now
            match update_token (some user) (some rt) store with
            | Except.error e => { result := Except.error e, store := store }
            | Except.ok store' =>
                { result := Except.ok
                    { access_token := at_, refresh_token := rt },
                  store := store' }

/-- `confirmed_email` route: decode the email token, 400 when the user is
missing, a message when already confirmed, otherwise set the flag through the
repository. -/
def confirmed_email_route (token : Token) (now : Nat) (store : List User) :
    RouteResult String :=
  match get_email_from_token (some token) now with
  | Except.error _ =>
      { result := Except.error
          (PyError.httpException 422 "Invalid token for email verification"),
        store := store }
  | Except.ok email =>
      match get_user_by_email email store with
      | none =>
          { result := Except.error
              (PyError.httpException 400 VERIFICATION_ERROR),
            store := store }
      | some user =>
          if user.confirmed then
            { result := Except.ok "Your email is already confirmed",
              store := store }
          else
            match confirmed_email email store with
            | Except.error e => { result := Except.error e, store := store }
            | Except.ok store' =>
                { result := Except.ok "Email confirmed", store := store' }

/-! ## Session cache and avatar route (`src/routes/users.py`) -/

/-- The cache (a remote key/value store): entries keyed by email, holding a
pickled user snapshot and an optional time-to-live in seconds.  A `SET`
without expiry leaves the key persistent (`none`). -/
abbrev Cache : Type := List (String × User × Option Nat)

/-- `cache.set(key, pickle.dumps(user))`: overwrite the value under the key
(dropping any previous expiry, as redis `SET` does) or insert it. -/
def cacheSet : Cache → String → User → Cache
  | [], k, u => [(k, u, none)]
  | e :: es, k, u => if e.1 == k then (k, u, none) :: es else e :: cacheSet es k u

/-- `cache.expire(key, seconds)`: set the time-to-live of an existing key. -/
def cacheExpire (c : Cache) (k : String) (ttl : Nat) : Cache :=
  List.map (fun e => if e.1 == k then (e.1, e.2.1, some ttl) else e) c

/-- Cache lookup: snapshot and time-to-live under a key. -/
def cacheGet : Cache → String → Option (User × Option Nat)
  | [], _ => none
  | e :: es, k => if e.1 == k then some e.2 else cacheGet es k

/-- The avatar `PATCH` handler (source names it `get_current_user`, shadowing
the `GET /me` handler of the same name): upload the image (external, the
resulting URL is an argument), update the row, then
`cache.set(user.email, pickle.dumps(user)); cache.expire(user.email, 300)`. -/
def avatar_patch_route (user : User) (res_url : String) (store : List User)
    (cache : Cache) : Except PyError (User × List User × Cache) :=
  match update_avatar_url user.email (some res_url) store with
  | Except.error e => Except.error e
  | Except.ok (u', store') =>
      let cache' := cacheExpire (cacheSet cache u'.email u') u'.email 300
      Except.ok (u', store', cache')

/-! ## Contact route wiring (`src/routes/contacts.py`)

The listing route calls `get_all_contacts(skip, limit, db, user)` while the
repository signature is `get_all_contacts(limit, offset, user, session)`.
Python binds the four arguments positionally with no type checking, so the
session lands in the `user` parameter and the user in the `session`
parameter; the repository then evaluates `user.id`.  The dynamic (untyped)
argument values are modelled by a sum. -/

/-- A Python value flowing into the repository's last two positional
parameters: either the SQLAlchemy session or the ORM user. -/
inductive PyVal where
  | session (db : List Contact)
  | user (u : User)

/-- Python attribute lookup `x.id`: defined on a user row, an
`AttributeError` on the session object. -/
def pyGetId : PyVal → Except PyError Nat
  | PyVal.user u => Except.ok u.id
  | PyVal.session _ =>
      Except.error (PyError.attributeError
        "AsyncSession object has no attribute id")

/-- Python attribute/method lookup `x.execute(...)`: defined on the session,
an `AttributeError` on a user row. -/
def pyExecuteFilter (v : PyVal) (p : Contact → Bool) :
    Except PyError (List Contact) :=
  match v with
  | PyVal.session db => Except.ok (db.filter p)
  | PyVal.user _ =>
      Except.error (PyError.attributeError
        "User object has no attribute execute")

/-- `get_all_contacts` as called dynamically: the query builder first
evaluates `user.id`, then the session executes the filtered, offset and
limited select. -/
def get_all_contacts_dyn (limit offset : Nat) (user sess : PyVal) :
    Except PyError (List Contact) :=
  match pyGetId user with
  | Except.error e => Except.error e
  | Except.ok uid =>
      match pyExecuteFilter sess (fun c => c.user_id == some uid) with
      | Except.error e => Except.error e
      | Except.ok rows => Except.ok ((rows.drop offset).take limit)

/-- The `read_contacts` route handler: its `(skip, limit, db, user)` arguments
are passed positionally into the repository's
`(limit, offset, user, session)` parameters, exactly as the source does. -/
def read_contacts (skip limit : Nat) (db : List Contact) (user : User) :
    Except PyError (List Contact) :=
  get_all_contacts_dyn skip limit (PyVal.session db) (PyVal.user user)

/-! ## The user-store operations, as one step relation (for the confirmed-flag
invariant) -/

/-- Every operation in the sources that writes the user store: row creation by
signup, `update_token` (called by login and refresh), the repository
`confirmed_email`, and `update_avatar_url`. -/
inductive UserOp where
  | createUser (body : UserSchema) (salt : Nat) (avatar : Option String)
      (newId : Nat)
  | updateToken (u : User) (t : Option Token)
  | confirmEmail (email : String)
  | updateAvatar (email : String) (url : Option String)

/-- Effect of an operation on the user store; an operation that raises leaves
the store uncommitted, hence unchanged. -/
def applyOp (op : UserOp) (store : List User) : List User :=
  match op with
  | UserOp.createUser body salt avatar newId =>
      (signup body salt avatar newId store).store
  | UserOp.updateToken u t =>
      match update_token (some u) t store with
      | Except.ok s' => s'
      | Except.error _ => store
  | UserOp.confirmEmail email =>
      match confirmed_email email store with
      | Except.ok s' => s'
      | Except.error _ => store
  | UserOp.updateAvatar email url =>
      match update_avatar_url email url store with
      | Except.ok (_, s') => s'
      | Except.error _ => store

/-! ## Helper lemmas -/

/-- The head of a filtered list satisfies the filter predicate. -/
lemma head?_filter_pred {α : Type} (p : α → Bool) (l : List α) (a : α)
    (h : (l.filter p).head? = some a) : p a = true := by
  induction l with
  | nil => simp at h
  | cons b bs ih =>
      rw [List.filter_cons] at h
      by_cases hb : p b = true
      · rw [if_pos hb] at h
        rw [List.head?_cons, Option.some.injEq] at h
        rw [← h]
        exact hb
      · rw [if_neg hb] at h
        exact ih h

/-- A found user has the email it was looked up by. -/
lemma get_user_by_email_eq_email (email : String) (store : List User)
    (user : User) (h : get_user_by_email email store = some user) :
    user.email = email := by
  rw [get_user_by_email] at h
  have hp := head?_filter_pred (fun u => u.email == email) store user h
  exact beq_iff_eq.mp hp

/-- When no user has the email, every row fails the email test. -/
lemma get_user_by_email_none_forall (email : String) (store : List User)
    (h : get_user_by_email email store = none) :
    ∀ a ∈ store, (a.email == email) = false := by
  rw [get_user_by_email, List.head?_eq_none_iff, List.filter_eq_nil_iff] at h
  intro a ha
  simpa using h a ha

/-- Lookup distributes over an append whose first part has no match. -/
lemma get_user_by_email_append (email : String) (store l : List User)
    (h : get_user_by_email email store = none) :
    get_user_by_email email (store ++ l) = get_user_by_email email l := by
  rw [get_user_by_email, List.head?_eq_none_iff] at h
  rw [get_user_by_email, get_user_by_email, List.filter_append, h,
    List.nil_append]

/-- Replacing the first row equal to the found user updates exactly the row
the lookup returns, as long as the update keeps the email. -/
lemma get_user_by_email_replaceFirst (email : String) (f : User → User)
    (store : List User) (user : User) (hf : (f user).email = user.email)
    (h : get_user_by_email email store = some user) :
    get_user_by_email email (replaceFirst (fun v => v == user) f store)
      = some (f user) := by
  have hmail : user.email = email := get_user_by_email_eq_email email store user h
  induction store with
  | nil => simp [get_user_by_email] at h
  | cons v vs ih =>
      by_cases hv : (v.email == email) = true
      · have hvu : v = user := by
          rw [get_user_by_email, List.filter_cons, hv] at h
          simpa using h
        subst hvu
        simp only [replaceFirst, beq_self_eq_true, if_true]
        rw [get_user_by_email, List.filter_cons]
        have : ((f v).email == email) = true := beq_iff_eq.mpr (hf.trans hmail)
        simp [this]
      · have hvnu : (v == user) = false := by
          by_cases hvu : v = user
          · exact absurd (beq_iff_eq.mpr (hvu ▸ hmail)) hv
          · exact beq_eq_false_iff_ne.mpr hvu
        have h' : get_user_by_email email vs = some user := by
          rw [get_user_by_email, List.filter_cons] at h
          simp only [hv, if_false] at h
          exact h
        rw [replaceFirst]
        simp only [hvnu]
        rw [if_neg (by simp)]
        rw [get_user_by_email, List.filter_cons]
        simp only [hv, if_false]
        exact ih h'

/-- `replaceFirst` skips a prefix with no match. -/
lemma replaceFirst_append_of_none {α : Type} (p : α → Bool) (f : α → α)
    (l₁ l₂ : List α) (h : ∀ a ∈ l₁, p a = false) :
    replaceFirst p f (l₁ ++ l₂) = l₁ ++ replaceFirst p f l₂ := by
  induction l₁ with
  | nil => simp
  | cons a as ih =>
      have ha := h a (List.mem_cons_self a as)
      rw [List.cons_append, replaceFirst, ha]
      simp only [if_false, Bool.false_eq_true]
      rw [List.cons_append, ih fun b hb => h b (List.mem_cons_of_mem a hb)]

/-- Replacing a row that satisfies `p` by a row that, like it, fails `q`
leaves the `q`-filter unchanged. -/
lemma filter_replaceFirst_eq {α : Type} (p q : α → Bool) (f : α → α)
    (l : List α) (h : ∀ a, p a = true → q a = false ∧ q (f a) = false) :
    (replaceFirst p f l).filter q = l.filter q := by
  induction l with
  | nil => rfl
  | cons a as ih =>
      by_cases hp : p a = true
      · rw [replaceFirst, if_pos hp, List.filter_cons, List.filter_cons,
          (h a hp).1, (h a hp).2]
        simp
      · rw [replaceFirst, if_neg hp, List.filter_cons, List.filter_cons, ih]

/-- Removing a row that fails `q` leaves the `q`-filter unchanged. -/
lemma filter_removeFirst_eq {α : Type} (p q : α → Bool) (l : List α)
    (h : ∀ a, p a = true → q a = false) :
    (removeFirst p l).filter q = l.filter q := by
  induction l with
  | nil => rfl
  | cons a as ih =>
      by_cases hp : p a = true
      · rw [removeFirst, if_pos hp, List.filter_cons, h a hp]
        simp
      · rw [removeFirst, if_neg hp, List.filter_cons, List.filter_cons, ih]

/-- Row-wise effect of `replaceFirst`: each position is unchanged, or holds
the image of a row that satisfied the predicate. -/
lemma replaceFirst_getElem? {α : Type} (p : α → Bool) (f : α → α)
    (l : List α) (i : Nat) :
    (replaceFirst p f l)[i]? = l[i]?
    ∨ ∃ v, l[i]? = some v ∧ p v = true
        ∧ (replaceFirst p f l)[i]? = some (f v) := by
  induction l generalizing i with
  | nil => left; rfl
  | cons a as ih =>
      by_cases hp : p a = true
      · cases i with
        | zero => right; exact ⟨a, by simp, hp, by simp [replaceFirst, hp]⟩
        | succ n => left; simp [replaceFirst, hp]
      · cases i with
        | zero => left; simp [replaceFirst, hp]
        | succ n =>
            rcases ih n with h | ⟨v, hv, hpv, hv'⟩
            · left
              simpa [replaceFirst, hp] using h
            · right
              exact ⟨v, by simpa using hv, hpv,
                by simpa [replaceFirst, hp] using hv'⟩

/-- After a `SET` followed by `EXPIRE` on the same key, the key holds the new
snapshot with the requested time-to-live. -/
lemma cacheGet_set_expire (c : Cache) (k : String) (u : User) (ttl : Nat) :
    cacheGet (cacheExpire (cacheSet c k u) k ttl) k = some (u, some ttl) := by
  induction c with
  | nil => simp [cacheSet, cacheExpire, cacheGet]
  | cons e es ih =>
      by_cases he : (e.1 == k) = true
      · simp [cacheSet, he, cacheExpire, cacheGet]
      · rw [cacheSet, if_neg he, cacheExpire, List.map_cons, if_neg he,
          cacheGet, if_neg he]
        exact ih

/-! ## Claim theorems -/

/-- C4: for every subject, decoding an access token with expected kind access
yields the subject, decoding it with expected kind refresh fails with
`WrongTokenKind`; and every decode rejects any unexpired token whose kind is
not the expected one with `WrongTokenKind`. -/
theorem decode_checks_kind :
    (∀ (s : String) (now : Nat),
        decode (some (create_access_token s now)) TokenKind.access now
          = Except.ok s
        ∧ decode (some (create_access_token s now)) TokenKind.refresh now
          = Except.error TokenError.WrongTokenKind)
    ∧ ∀ (t : Token) (k : TokenKind) (now : Nat),
        t.kind ≠ k → now < t.exp →
        decode (some t) k now = Except.error TokenError.WrongTokenKind := by
  have hne : ∀ now : Nat, ¬ (now + accessExpireSeconds ≤ now) := by
    intro now
    rw [accessExpireSeconds]
    omega
  refine ⟨fun s now => ⟨?_, ?_⟩, fun t k now hk hexp => ?_⟩
  · rw [decode, create_access_token]
    rw [if_neg (hne now), if_pos rfl]
  · rw [decode, create_access_token]
    rw [if_neg (hne now), if_neg (by intro h; cases h)]
  · rw [decode, if_neg (Nat.not_le.mpr hexp), if_neg hk]

/-- C4 witness: the theorem at subject `a@x.com`, clock 0, and a concrete
email-kind token presented where an access token is expected. -/
theorem decode_checks_kind_witness :
    decode (some (create_access_token "a@x.com" 0)) TokenKind.access 0
      = Except.ok "a@x.com"
    ∧ decode (some (Token.mk "a@x.com" TokenKind.email 0 100))
        TokenKind.access 5
      = Except.error TokenError.WrongTokenKind :=
  ⟨(decode_checks_kind.1 "a@x.com" 0).1,
    decode_checks_kind.2 (Token.mk "a@x.com" TokenKind.email 0 100)
      TokenKind.access 5 (by decide) (by decide)⟩

/-- C9: the upcoming-birthday query at December 28, 2026 misses a January 2
birthday of the authenticated user, although January 2 lies 5 days inside the
7-day window (which ends January 4, 2027): the SQL filter compares the
`MM-DD` strings with `"12-28" <= mmdd <= "01-04"`, which no string
satisfies once the window crosses the end of the year. -/
theorem upcoming_birthdays_miss_year_wrap :
    get_upcoming_birthdays { year := 2026, month := 12, day := 28 }
      [{ id := 1, first_name := "Bea", last_name := "Y", email := "b@y.com",
         phone_number := "123", birthday := { year := 1990, month := 1, day := 2 },
         additional_info := none, user_id := some 1 }]
      { id := 1, username := "ann", email := "a@x.com",
        password := { salt := 0, tag := "pw" }, avatar := none,
        refresh_token := none, confirmed := true }
      = []
    ∧ addDays { year := 2026, month := 12, day := 28 } 7
        = { year := 2027, month := 1, day := 4 } := by
  exact ⟨rfl, rfl⟩

/-- C7: the contact-listing route passes its `(skip, limit, db, user)`
arguments positionally into the repository's `(limit, offset, user, session)`
parameters, so the session object arrives where the user is expected; the
query builder then evaluates `user.id` on the session and the request dies
with an `AttributeError` instead of returning the user's page of contacts. -/
theorem read_contacts_crashes_on_swapped_arguments :
    read_contacts 0 100
      [{ id := 1, first_name := "Bea", last_name := "Y", email := "b@y.com",
         phone_number := "123", birthday := { year := 1990, month := 1, day := 2 },
         additional_info := none, user_id := some 1 }]
      { id := 1, username := "ann", email := "a@x.com",
        password := { salt := 0, tag := "pw" }, avatar := none,
        refresh_token := none, confirmed := true }
      = Except.error (PyError.attributeError
          "AsyncSession object has no attribute id") := rfl

/-- C1: when the refresh route decodes a valid refresh token whose subject has
no user in the store, the code reaches `update_token(None, None, db)`, whose
first statement dereferences the missing user (`None.refresh_token = ...`)
and raises `AttributeError` — the unauthorized `RevokedToken` response is
never produced. -/
theorem refresh_with_absent_user_crashes :
    refresh_token
      { sub := "ghost@x.com", kind := TokenKind.refresh, iat := 0,
        exp := 604800 } 5 []
      = { result := Except.error (PyError.attributeError
            "NoneType object has no attribute refresh_token"),
          store := [] } := rfl

/-- C5 counterexample: with a stored but unconfirmed user, a correct-password
login and a wrong-password login both fail with status 401 but with different
detail strings, so the cause is distinguishable by the caller — refuting the
claim that every authentication failure returns the same response. -/
theorem login_failures_distinguishable :
    (login "a@x.com" "pw" 0
        [{ id := 1, username := "ann", email := "a@x.com",
           password := get_password_hash "pw" 0, avatar := none,
           refresh_token := none, confirmed := false }]).result
      = Except.error (PyError.httpException 401 EMAIL_NOT_CONFIRMED)
    ∧ (login "a@x.com" "bad" 0
        [{ id := 1, username := "ann", email := "a@x.com",
           password := get_password_hash "pw" 0, avatar := none,
           refresh_token := none, confirmed := false }]).result
      = Except.error (PyError.httpException 401 INCORRECT_EMAIL_PASSWORD)
    ∧ EMAIL_NOT_CONFIRMED ≠ INCORRECT_EMAIL_PASSWORD := by
  refine ⟨rfl, rfl, by decide⟩

/-- C5 amended: every failing login returns status 401; an unknown email and a
wrong password return the same generic detail, indistinguishable from each
other, but an unconfirmed email returns the distinct email-not-confirmed
detail. -/
theorem login_failure_responses :
    ∀ (username password : String) (now : Nat) (store : List User),
      (get_user_by_email username store = none →
        (login username password now store).result
          = Except.error (PyError.httpException 401 INCORRECT_EMAIL_PASSWORD))
      ∧ (∀ user, get_user_by_email username store = some user →
          verify_password password user.password = false →
          (login username password now store).result
            = Except.error (PyError.httpException 401 INCORRECT_EMAIL_PASSWORD))
      ∧ (∀ user, get_user_by_email username store = some user →
          verify_password password user.password = true →
          user.confirmed = false →
          (login username password now store).result
            = Except.error (PyError.httpException 401 EMAIL_NOT_CONFIRMED))
      ∧ ∀ e, (login username password now store).result = Except.error e →
          e = PyError.httpException 401 INCORRECT_EMAIL_PASSWORD
          ∨ e = PyError.httpException 401 EMAIL_NOT_CONFIRMED := by
  intro username password now store
  refine ⟨?_, ?_, ?_, ?_⟩
  · intro h
    simp [login, h]
  · intro user h hv
    simp [login, h, hv]
  · intro user h hv hc
    simp [login, h, hv, hc]
  · intro e he
    cases hg : get_user_by_email username store with
    | none =>
        simp [login, hg] at he
        exact Or.inl he.symm
    | some user =>
        by_cases hv : verify_password password user.password = true
        · by_cases hc : user.confirmed = true
          · simp [login, hg, hv, hc, update_token] at he
          · simp [login, hg, hv, hc] at he
            exact Or.inr he.symm
        · simp [login, hg, hv] at he
          exact Or.inl he.symm

/-- C5 amended witness: the three branches of the amended statement at a
concrete store. -/
theorem login_failure_responses_witness :
    (login "nobody" "pw" 0
        [{ id := 1, username := "ann", email := "a@x.com",
           password := get_password_hash "pw" 0, avatar := none,
           refresh_token := none, confirmed := false }]).result
      = Except.error (PyError.httpException 401 INCORRECT_EMAIL_PASSWORD) :=
  (login_failure_responses "nobody" "pw" 0
      [{ id := 1, username := "ann", email := "a@x.com",
         password := get_password_hash "pw" 0, avatar := none,
         refresh_token := none, confirmed := false }]).1 rfl

/-- C10: every successful avatar update overwrites the cache entry under the
user's email with the updated snapshot and gives it a 300-second expiry; the
snapshot carries the new avatar URL. -/
theorem avatar_update_overwrites_cache_with_ttl300 :
    ∀ (user : User) (res_url : String) (store : List User) (cache : Cache)
      (u' : User) (store' : List User) (cache' : Cache),
      avatar_patch_route user res_url store cache
        = Except.ok (u', store', cache') →
      cacheGet cache' user.email = some (u', some 300)
      ∧ u'.avatar = some res_url
      ∧ u'.email = user.email := by
  intro user res_url store cache u' store' cache' h
  rw [avatar_patch_route] at h
  cases hg : get_user_by_email user.email store with
  | none => rw [update_avatar_url, hg] at h; cases h
  | some u0 =>
      rw [update_avatar_url, hg] at h
      cases h
      have hmail : u0.email = user.email :=
        get_user_by_email_eq_email user.email store u0 hg
      refine ⟨?_, rfl, hmail⟩
      rw [show user.email = u0.email from hmail.symm]
      exact cacheGet_set_expire cache u0.email
        { u0 with avatar := some res_url } 300

/-- C10 witness: the theorem at a concrete user, URL, store and empty
cache. -/
theorem avatar_update_overwrites_cache_with_ttl300_witness :
    cacheGet
      (cacheExpire
        (cacheSet [] "a@x.com"
          (User.mk 1 "ann" "a@x.com" (Digest.mk 0 "pw") (some "http://img")
            none true))
        "a@x.com" 300)
      "a@x.com"
      = some (User.mk 1 "ann" "a@x.com" (Digest.mk 0 "pw") (some "http://img")
          none true, some 300) :=
  (avatar_update_overwrites_cache_with_ttl300
    (User.mk 1 "ann" "a@x.com" (Digest.mk 0 "pw") none none true)
    "http://img"
    [User.mk 1 "ann" "a@x.com" (Digest.mk 0 "pw") none none true]
    [] _ _ _ rfl).1

/-- Rows of the contact table that belong to some other user. -/
def otherRows (user : User) (db : List Contact) : List Contact :=
  db.filter fun c => !(c.user_id == some user.id)

/-- C6: every contact repository operation is scoped to the authenticated
user: the read operations (list, get, search, upcoming birthdays) return only
rows with the user's id, and the write operations (create, update, delete)
leave the rows of every other user untouched. -/
theorem contacts_scoped_to_user :
    ∀ (user : User) (db : List Contact) (limit offset contact_id newId : Nat)
      (q : String) (body : ContactBase) (today : PyDate),
      (∀ c ∈ get_all_contacts limit offset user db, c.user_id = some user.id)
      ∧ (∀ c, get_contact contact_id db user = some c →
          c.user_id = some user.id)
      ∧ (create_contact body newId db user).1.user_id = some user.id
      ∧ otherRows user (create_contact body newId db user).2
          = otherRows user db
      ∧ (∀ c, (update_contact contact_id body db user).1 = some c →
          c.user_id = some user.id)
      ∧ otherRows user (update_contact contact_id body db user).2
          = otherRows user db
      ∧ (∀ c, (remove_contact contact_id db user).1 = some c →
          c.user_id = some user.id)
      ∧ otherRows user (remove_contact contact_id db user).2
          = otherRows user db
      ∧ (∀ c ∈ search_contacts db q user, c.user_id = some user.id)
      ∧ (∀ c ∈ get_upcoming_birthdays today db user,
          c.user_id = some user.id) := by
  intro user db limit offset contact_id newId q body today
  have hfetch : ∀ c, (db.filter fun v =>
      v.id == contact_id && v.user_id == some user.id).head? = some c →
      c.user_id = some user.id := by
    intro c hc
    have := head?_filter_pred _ db c hc
    exact beq_iff_eq.mp (Bool.and_elim_right this)
  refine ⟨?_, ?_, rfl, ?_, ?_, ?_, ?_, ?_, ?_, ?_⟩
  · intro c hc
    rw [get_all_contacts] at hc
    have hm := List.mem_of_mem_drop (List.mem_of_mem_take hc)
    exact beq_iff_eq.mp (List.mem_filter.mp hm).2
  · intro c hc
    exact hfetch c hc
  · rw [create_contact, otherRows, otherRows, List.filter_append]
    simp
  · intro c hc
    rw [update_contact] at hc
    cases hh : (db.filter fun v =>
        v.id == contact_id && v.user_id == some user.id).head? with
    | none => rw [hh] at hc; cases hc
    | some c0 =>
        rw [hh] at hc
        cases hc
        have := hfetch c0 hh
        simpa [applyContactBase] using this
  · rw [update_contact]
    cases hh : (db.filter fun v =>
        v.id == contact_id && v.user_id == some user.id).head? with
    | none => rfl
    | some c0 =>
        have hc0 := hfetch c0 hh
        rw [otherRows, otherRows]
        refine filter_replaceFirst_eq _ _ _ db ?_
        intro a ha
        have hac0 : a = c0 := beq_iff_eq.mp ha
        subst hac0
        exact ⟨by simp [hc0], by simp [applyContactBase, hc0]⟩
  · intro c hc
    rw [remove_contact] at hc
    cases hh : (db.filter fun v =>
        v.id == contact_id && v.user_id == some user.id).head? with
    | none => rw [hh] at hc; cases hc
    | some c0 =>
        rw [hh] at hc
        cases hc
        exact hfetch _ hh
  · rw [remove_contact]
    cases hh : (db.filter fun v =>
        v.id == contact_id && v.user_id == some user.id).head? with
    | none => rfl
    | some c0 =>
        have hc0 := hfetch c0 hh
        rw [otherRows, otherRows]
        refine filter_removeFirst_eq _ _ db ?_
        intro a ha
        have hac0 : a = c0 := beq_iff_eq.mp ha
        subst hac0
        simp [hc0]
  · intro c hc
    rw [search_contacts] at hc
    exact beq_iff_eq.mp (Bool.and_elim_right (List.mem_filter.mp hc).2)
  · intro c hc
    rw [get_upcoming_birthdays] at hc
    exact beq_iff_eq.mp (Bool.and_elim_left (List.mem_filter.mp hc).2)

/-- C6 witness: the listing part of the theorem at a concrete user, store and
page, for a concrete returned contact. -/
theorem contacts_scoped_to_user_witness :
    ({ id := 1, first_name := "Bea", last_name := "Y", email := "b@y.com",
       phone_number := "123", birthday := { year := 1990, month := 1, day := 2 },
       additional_info := none, user_id := some 1 } : Contact).user_id
      = some 1 :=
  (contacts_scoped_to_user
    { id := 1, username := "ann", email := "a@x.com",
      password := { salt := 0, tag := "pw" }, avatar := none,
      refresh_token := none, confirmed := true }
    [{ id := 1, first_name := "Bea", last_name := "Y", email := "b@y.com",
       phone_number := "123", birthday := { year := 1990, month := 1, day := 2 },
       additional_info := none, user_id := some 1 },
     { id := 2, first_name := "Cyd", last_name := "Z", email := "c@z.com",
       phone_number := "456", birthday := { year := 1991, month := 3, day := 4 },
       additional_info := none, user_id := some 2 }]
    10 0 1 7 "Bea"
    { first_name := "B", last_name := "Y", email := "b@y.com",
      phone_number := "123", birthday := { year := 1990, month := 1, day := 2 } }
    { year := 2026, month := 6, day := 1 }).1
    { id := 1, first_name := "Bea", last_name := "Y", email := "b@y.com",
      phone_number := "123", birthday := { year := 1990, month := 1, day := 2 },
      additional_info := none, user_id := some 1 }
    (by decide)

/-- C8: the confirmed flag is monotonic: a row created by signup starts with
`confirmed = false`; under every store-writing operation, a row that was
confirmed stays confirmed; and every operation other than the
email-confirmation flow leaves the flag of every row exactly as it was. -/
theorem confirmed_flag_monotonic :
    (∀ (body : UserSchema) (salt : Nat) (avatar : Option String)
        (newId : Nat), (mkNewUser body salt avatar newId).confirmed = false)
    ∧ ∀ (op : UserOp) (store : List User) (i : Nat) (v v' : User),
        store[i]? = some v → (applyOp op store)[i]? = some v' →
        (v.confirmed = true → v'.confirmed = true)
        ∧ ((∀ email, op ≠ UserOp.confirmEmail email) →
            v'.confirmed = v.confirmed) := by
  refine ⟨fun body salt avatar newId => rfl, ?_⟩
  intro op store i v v' hv hv'
  have hi : i < store.length := by
    by_contra hge
    rw [List.getElem?_eq_none (Nat.le_of_not_lt hge)] at hv
    cases hv
  cases op with
  | createUser body salt avatar newId =>
      cases hg : get_user_by_email body.email store with
      | some u =>
          simp only [applyOp, signup, hg] at hv'
          rw [hv] at hv'; cases hv'; exact ⟨id, fun _ => rfl⟩
      | none =>
          simp only [applyOp, signup, hg] at hv'
          rw [List.getElem?_append_left hi] at hv'
          rw [hv] at hv'
          cases hv'
          exact ⟨id, fun _ => rfl⟩
  | updateToken u t =>
      simp only [applyOp, update_token] at hv'
      rcases replaceFirst_getElem? (fun w => w == u)
          (fun w => { w with refresh_token := t }) store i with h | ⟨w, hw, _, hw'⟩
      · rw [h, hv] at hv'; cases hv'; exact ⟨id, fun _ => rfl⟩
      · rw [hw] at hv
        cases hv
        rw [hw'] at hv'
        cases hv'
        exact ⟨id, fun _ => rfl⟩
  | confirmEmail email =>
      cases hg : get_user_by_email email store with
      | none =>
          simp only [applyOp, confirmed_email, hg] at hv'
          rw [hv] at hv'
          cases hv'
          exact ⟨id, fun _ => rfl⟩
      | some u =>
          simp only [applyOp, confirmed_email, hg] at hv'
          rcases replaceFirst_getElem? (fun w => w == u)
              (fun w => { w with confirmed := true }) store i with h | ⟨w, hw, _, hw'⟩
          · rw [h, hv] at hv'; cases hv'; exact ⟨id, fun _ => rfl⟩
          · rw [hw] at hv
            cases hv
            rw [hw'] at hv'
            cases hv'
            exact ⟨fun _ => rfl, fun hne => absurd rfl (hne email)⟩
  | updateAvatar email url =>
      cases hg : get_user_by_email email store with
      | none =>
          simp only [applyOp, update_avatar_url, hg] at hv'
          rw [hv] at hv'
          cases hv'
          exact ⟨id, fun _ => rfl⟩
      | some u =>
          simp only [applyOp, update_avatar_url, hg] at hv'
          rcases replaceFirst_getElem? (fun w => w == u)
              (fun _ => { u with avatar := url }) store i with h | ⟨w, hw, hpw, hw'⟩
          · rw [h, hv] at hv'; cases hv'; exact ⟨id, fun _ => rfl⟩
          · rw [hw] at hv
            cases hv
            have hvu : v = u := beq_iff_eq.mp hpw
            rw [hw'] at hv'
            cases hv'
            rw [hvu]
            exact ⟨id, fun _ => rfl⟩

/-- C8 witness: the theorem at a fresh signup row and at a concrete
token-update step on a confirmed user. -/
theorem confirmed_flag_monotonic_witness :
    (mkNewUser (UserSchema.mk "ann" "a@x.com" "pw") 0 none 1).confirmed = false
    ∧ (User.mk 1 "ann" "a@x.com" (Digest.mk 0 "pw") none none
        true).confirmed = true := by
  refine ⟨confirmed_flag_monotonic.1 (UserSchema.mk "ann" "a@x.com" "pw") 0
    none 1, ?_⟩
  have h := (confirmed_flag_monotonic.2
    (UserOp.updateToken
      (User.mk 1 "ann" "a@x.com" (Digest.mk 0 "pw") none none true) none)
    [User.mk 1 "ann" "a@x.com" (Digest.mk 0 "pw") none none true] 0
    (User.mk 1 "ann" "a@x.com" (Digest.mk 0 "pw") none none true)
    (User.mk 1 "ann" "a@x.com" (Digest.mk 0 "pw") none none true)
    (by decide) (by decide)).1
  exact h rfl

/-- C2: refresh rotation. When the presented refresh token rt1 equals the one
stored on the user and is still valid, the refresh call succeeds with a pair
whose refresh token is the freshly issued rt2, the stored token becomes rt2,
and a second refresh call presenting rt1 fails with the unauthorized
`RevokedToken` (401, invalid-refresh-token) response.  The freshness
hypothesis `rt1.iat ≠ now2` says the second issuance happens at a different
clock instant than rt1's, so rt2 is a different token string. -/
theorem refresh_rotation (store : List User) (user : User) (rt1 : Token)
    (now2 now3 : Nat)
    (hget : get_user_by_email rt1.sub store = some user)
    (hstored : user.refresh_token = some rt1)
    (hkind : rt1.kind = TokenKind.refresh)
    (hval2 : now2 < rt1.exp) (hval3 : now3 < rt1.exp)
    (hfresh : rt1.iat ≠ now2) :
    (refresh_token rt1 now2 store).result
        = Except.ok { access_token := create_access_token rt1.sub now2,
                      refresh_token := create_refresh_token rt1.sub now2 }
    ∧ get_user_by_email rt1.sub (refresh_token rt1 now2 store).store
        = some { user with
            refresh_token := some (create_refresh_token rt1.sub now2) }
    ∧ (refresh_token rt1 now3 (refresh_token rt1 now2 store).store).result
        = Except.error (PyError.httpException 401 INVALID_REFRESH_TOKEN) := by
  have hdec : ∀ now, now < rt1.exp →
      decode_refresh_token (some rt1) now = Except.ok rt1.sub := by
    intro now hn
    rw [decode_refresh_token, decode, if_neg (Nat.not_le.mpr hn), if_pos hkind]
  have hcall1 : refresh_token rt1 now2 store
      = { result := Except.ok
            { access_token := create_access_token rt1.sub now2,
              refresh_token := create_refresh_token rt1.sub now2 },
          store := replaceFirst (fun v => v == user)
            (fun v =>
              { v with refresh_token := some (create_refresh_token rt1.sub now2) })
            store } := by
    rw [refresh_token, hdec now2 hval2]
    simp only [hget, hstored, ne_eq, not_true_eq_false, if_false,
      update_token]
  have hget1 : get_user_by_email rt1.sub (refresh_token rt1 now2 store).store
      = some { user with
          refresh_token := some (create_refresh_token rt1.sub now2) } := by
    rw [hcall1]
    exact get_user_by_email_replaceFirst rt1.sub _ store user rfl hget
  have hne' : create_refresh_token rt1.sub now2 ≠ rt1 := by
    intro h
    exact hfresh (congrArg Token.iat h).symm
  have hcall2 : (refresh_token rt1 now3
      (refresh_token rt1 now2 store).store).result
      = Except.error (PyError.httpException 401 INVALID_REFRESH_TOKEN) := by
    rw [refresh_token, hdec now3 hval3]
    simp only [hget1, ne_eq, Option.some.injEq, update_token]
    simp [hne']
  exact ⟨by rw [hcall1], hget1, hcall2⟩

/-- C2 witness: the rotation scenario at a concrete one-user store, with the
stored refresh token issued at time 0 and the two refresh calls at times 10
and 20. -/
theorem refresh_rotation_witness :
    (refresh_token (Token.mk "a@x.com" TokenKind.refresh 0 604800) 20
        (refresh_token (Token.mk "a@x.com" TokenKind.refresh 0 604800) 10
          [User.mk 1 "ann" "a@x.com" (Digest.mk 0 "pw") none
            (some (Token.mk "a@x.com" TokenKind.refresh 0 604800))
            true]).store).result
      = Except.error (PyError.httpException 401 INVALID_REFRESH_TOKEN) :=
  (refresh_rotation
    [User.mk 1 "ann" "a@x.com" (Digest.mk 0 "pw") none
      (some (Token.mk "a@x.com" TokenKind.refresh 0 604800)) true]
    (User.mk 1 "ann" "a@x.com" (Digest.mk 0 "pw") none
      (some (Token.mk "a@x.com" TokenKind.refresh 0 604800)) true)
    (Token.mk "a@x.com" TokenKind.refresh 0 604800) 10 20 rfl rfl rfl
    (by decide) (by decide) (by decide)).2.2

/-- C3: for a fresh email, signup creates the user with `confirmed = false`;
login before confirmation fails with the unauthorized email-not-confirmed
error although the password is correct; after the email-confirmation flow,
the same login succeeds and returns an access/refresh pair. -/
theorem signup_confirm_login_flow (body : UserSchema) (salt : Nat)
    (avatar : Option String) (newId : Nat) (store : List User)
    (nowE now2 : Nat)
    (hfresh : get_user_by_email body.email store = none) :
    (signup body salt avatar newId store).result
        = Except.ok (mkNewUser body salt avatar newId)
    ∧ (mkNewUser body salt avatar newId).confirmed = false
    ∧ (login body.email body.password now2
          (signup body salt avatar newId store).store).result
        = Except.error (PyError.httpException 401 EMAIL_NOT_CONFIRMED)
    ∧ (confirmed_email_route (create_email_token body.email nowE) nowE
          (signup body salt avatar newId store).store).result
        = Except.ok "Email confirmed"
    ∧ (login body.email body.password now2
          (confirmed_email_route (create_email_token body.email nowE) nowE
            (signup body salt avatar newId store).store).store).result
        = Except.ok { access_token := create_access_token body.email now2,
                      refresh_token := create_refresh_token body.email now2 } := by
  have hs : signup body salt avatar newId store
      = { result := Except.ok (mkNewUser body salt avatar newId),
          store := store ++ [mkNewUser body salt avatar newId] } := by
    rw [signup, hfresh]
  have hmail : (mkNewUser body salt avatar newId).email = body.email := rfl
  have hg1 : get_user_by_email body.email
      (store ++ [mkNewUser body salt avatar newId])
      = some (mkNewUser body salt avatar newId) := by
    rw [get_user_by_email_append body.email store _ hfresh]
    rw [get_user_by_email, List.filter_cons]
    simp [hmail]
  have hverify : verify_password body.password
      (mkNewUser body salt avatar newId).password = true := by
    simp [mkNewUser, get_password_hash, verify_password]
  have hconf : (mkNewUser body salt avatar newId).confirmed = false := rfl
  have hlogin1 : (login body.email body.password now2
      (store ++ [mkNewUser body salt avatar newId])).result
      = Except.error (PyError.httpException 401 EMAIL_NOT_CONFIRMED) := by
    simp [login, hg1, hverify, hconf]
  have hdecE : get_email_from_token
      (some (create_email_token body.email nowE)) nowE
      = Except.ok body.email := by
    have hne : ¬ (nowE + emailExpireSeconds ≤ nowE) := by
      rw [emailExpireSeconds]
      omega
    rw [get_email_from_token, decode, create_email_token]
    rw [if_neg hne, if_pos rfl]
  have hnou : ∀ a ∈ store, (a == mkNewUser body salt avatar newId) = false := by
    intro a ha
    have hae := get_user_by_email_none_forall body.email store hfresh a ha
    by_cases h : a = mkNewUser body salt avatar newId
    · subst h
      rw [hmail] at hae
      simp at hae
    · exact beq_eq_false_iff_ne.mpr h
  have hrf : replaceFirst (fun v => v == mkNewUser body salt avatar newId)
      (fun v => { v with confirmed := true })
      (store ++ [mkNewUser body salt avatar newId])
      = store ++ [{ mkNewUser body salt avatar newId with confirmed := true }] := by
    rw [replaceFirst_append_of_none _ _ store _ hnou]
    rw [replaceFirst]
    simp
  have hconfirm : confirmed_email_route (create_email_token body.email nowE)
      nowE (store ++ [mkNewUser body salt avatar newId])
      = { result := Except.ok "Email confirmed",
          store := store
            ++ [{ mkNewUser body salt avatar newId with confirmed := true }] } := by
    rw [confirmed_email_route, hdecE]
    simp only [hg1, hconf, Bool.false_eq_true, if_false, confirmed_email]
    rw [hrf]
  have hg2 : get_user_by_email body.email
      (store ++ [{ mkNewUser body salt avatar newId with confirmed := true }])
      = some { mkNewUser body salt avatar newId with confirmed := true } := by
    rw [get_user_by_email_append body.email store _ hfresh]
    rw [get_user_by_email, List.filter_cons]
    simp [mkNewUser]
  have hlogin2 : (login body.email body.password now2
      (store ++ [{ mkNewUser body salt avatar newId with confirmed := true }])).result
      = Except.ok { access_token := create_access_token body.email now2,
                    refresh_token := create_refresh_token body.email now2 } := by
    rw [login, hg2]
    simp [update_token, hverify, hmail]
  refine ⟨by rw [hs], hconf, ?_, ?_, ?_⟩
  · rw [hs]
    exact hlogin1
  · rw [hs]
    rw [hconfirm]
  · rw [hs]
    rw [hconfirm]
    exact hlogin2

/-- C3 witness: the whole flow at a concrete fresh signup over the empty
store. -/
theorem signup_confirm_login_flow_witness :
    (login "a@x.com" "pw" 50
        (confirmed_email_route (create_email_token "a@x.com" 30) 30
          (signup (UserSchema.mk "ann" "a@x.com" "pw") 0 none 1 []).store).store).result
      = Except.ok
          { access_token := create_access_token "a@x.com" 50,
            refresh_token := create_refresh_token "a@x.com" 50 } :=
  (signup_confirm_login_flow (UserSchema.mk "ann" "a@x.com" "pw") 0 none 1 []
    30 50 rfl).2.2.2.2

end HW14
